import Mathlib

/-!
Verification of the knowledge-base ingestion and vector-retrieval pipeline
of the feature-copilot backend (src/backend/app/routers/knowledge_base.py
and src/backend/app/services/ai_service.py).

Modelling conventions: Python strings are lists of characters, byte blobs
are lists of naturals below 256, SQL tables are Lean lists of records,
timestamps are abstract natural-number ticks, float arithmetic is exact
rational arithmetic, and the external AI provider is an explicit function
parameter.  Recursive scanners take an explicit fuel argument that is
always large enough for their input.
-/

/-- Python whitespace predicate used by str.strip with no arguments
(space, tab, newline, carriage return, vertical tab, form feed). -/
def isPySpace (c : Char) : Bool :=
  c == ' ' || c == '\t' || c == '\n' || c == '\r' || c == '\x0b' || c == '\x0c'

/-- Model of Python str.strip with no arguments: remove leading and
trailing whitespace. -/
def pyStrip (s : List Char) : List Char :=
  ((s.dropWhile isPySpace).reverse.dropWhile isPySpace).reverse

/-- Index of the first occurrence of the pattern as a contiguous
sublist, as in Python str.find for a nonempty pattern (none when the
pattern does not occur). -/
def findSub (pat : List Char) : List Char → Option Nat
  | [] => if pat.isEmpty then some 0 else none
  | c :: cs =>
    if pat.isPrefixOf (c :: cs) then some 0
    else (findSub pat cs).map (fun i => i + 1)

/-- Index of the last occurrence of a single character, as in Python
str.rfind (none when the character does not occur). -/
def lastIdxOf (c : Char) (s : List Char) : Option Nat :=
  (findSub [c] s.reverse).map (fun i => s.length - 1 - i)

/-- Fuel-driven worker for py_split. -/
def splitSepFuel (sep : List Char) : Nat → List Char → List (List Char)
  | 0, s => [s]
  | fuel + 1, s =>
    match findSub sep s with
    | none => [s]
    | some i => s.take i :: splitSepFuel sep fuel (s.drop (i + sep.length))

/-- Model of Python str.split with a nonempty separator: the list of
chunks between non-overlapping leftmost occurrences of the separator. -/
def py_split (s sep : List Char) : List (List Char) :=
  splitSepFuel sep (s.length + 1) s

/-- Fuel-driven worker for pyReplace. -/
def replaceFuel (old new : List Char) : Nat → List Char → List Char
  | 0, s => s
  | fuel + 1, s =>
    match findSub old s with
    | none => s
    | some i => s.take i ++ new ++ replaceFuel old new fuel (s.drop (i + old.length))

/-- Model of Python str.replace: replace every non-overlapping leftmost
occurrence of old by new. -/
def pyReplace (s old new : List Char) : List Char :=
  replaceFuel old new (s.length + 1) s

/-- Whitespace skipping of the Python json scanner (space, tab, newline,
carriage return). -/
def skipWs : List Char → List Char
  | c :: cs => if c == ' ' || c == '\t' || c == '\n' || c == '\r' then skipWs cs else c :: cs
  | [] => []

/-- JSON value as returned by the Python json and ast loaders.  Object
member order is preserved; numbers are exact rationals. -/
inductive Json where
  | null : Json
  | bool (b : Bool) : Json
  | num (q : ℚ) : Json
  | str (s : List Char) : Json
  | arr (elems : List Json) : Json
  | obj (members : List (List Char × Json)) : Json

/-- Longest run of decimal digits at the head of the input, with the
rest. -/
def spanDigits (cs : List Char) : List Char × List Char :=
  (cs.takeWhile Char.isDigit, cs.dropWhile Char.isDigit)

/-- Natural-number value of a run of decimal digits. -/
def digitsVal (ds : List Char) : Nat :=
  ds.foldl (fun a c => a * 10 + (c.toNat - 48)) 0

/-- JSON number scanning, following the anchored regular expression of
the Python json scanner: optional minus sign, an integer part that is a
lone zero or starts with a nonzero digit, then optional fraction and
exponent, taking the longest match and leaving the rest unconsumed. -/
def pNum (cs : List Char) : Except String (ℚ × List Char) :=
  let (neg, cs1) :=
    match cs with
    | '-' :: r => (true, r)
    | _ => (false, cs)
  let (allDs, _) := spanDigits cs1
  if allDs.isEmpty then .error "Expecting value"
  else
    let intDs := if allDs.headD 'x' == '0' then ['0'] else allDs
    let r1 := cs1.drop intDs.length
    let (fracDs, r2) :=
      match r1 with
      | '.' :: rr =>
        let (fs, rrest) := spanDigits rr
        if fs.isEmpty then (([] : List Char), r1) else (fs, rrest)
      | _ => ([], r1)
    let (expNeg, expDs, r3) :=
      match r2 with
      | e :: rr =>
        if e == 'e' || e == 'E' then
          match rr with
          | '+' :: rr2 =>
            let (es, rrest) := spanDigits rr2
            if es.isEmpty then (false, ([] : List Char), r2) else (false, es, rrest)
          | '-' :: rr2 =>
            let (es, rrest) := spanDigits rr2
            if es.isEmpty then (false, ([] : List Char), r2) else (true, es, rrest)
          | _ =>
            let (es, rrest) := spanDigits rr
            if es.isEmpty then (false, ([] : List Char), r2) else (false, es, rrest)
        else (false, [], r2)
      | [] => (false, [], r2)
    let mantissa : ℚ :=
      if fracDs.isEmpty then (digitsVal intDs : ℚ)
      else (digitsVal (intDs ++ fracDs) : ℚ) / (10 : ℚ) ^ fracDs.length
    let scaled : ℚ :=
      if expDs.isEmpty then mantissa
      else if expNeg then mantissa / (10 : ℚ) ^ digitsVal expDs
      else mantissa * (10 : ℚ) ^ digitsVal expDs
    .ok (if neg then -scaled else scaled, r3)

/-- Value of one hexadecimal digit. -/
def hexDigitVal (c : Char) : Option Nat :=
  if c.isDigit then some (c.toNat - 48)
  else if 'a' ≤ c ∧ c ≤ 'f' then some (c.toNat - 87)
  else if 'A' ≤ c ∧ c ≤ 'F' then some (c.toNat - 55)
  else none

/-- Decoding of one JSON string escape sequence (the character after the
backslash together with the input following it): returns the decoded
character and the remaining input.  Handles the standard escapes and
UTF-16 surrogate pairs as the Python json decoder does. -/
def decodeEsc (e : Char) (r2 : List Char) : Except String (Char × List Char) :=
  if e == '"' then .ok ('"', r2)
  else if e == '\\' then .ok ('\\', r2)
  else if e == '/' then .ok ('/', r2)
  else if e == 'b' then .ok ('\x08', r2)
  else if e == 'f' then .ok ('\x0c', r2)
  else if e == 'n' then .ok ('\n', r2)
  else if e == 'r' then .ok ('\r', r2)
  else if e == 't' then .ok ('\t', r2)
  else if e == 'u' then
    match r2 with
    | a :: b :: c2 :: d :: r3 =>
      match hexDigitVal a, hexDigitVal b, hexDigitVal c2, hexDigitVal d with
      | some ha, some hb, some hc, some hd =>
        let n := ((ha * 16 + hb) * 16 + hc) * 16 + hd
        if 0xD800 ≤ n && n ≤ 0xDBFF then
          match r3 with
          | '\\' :: 'u' :: a2 :: b2 :: c3 :: d2 :: r4 =>
            match hexDigitVal a2, hexDigitVal b2, hexDigitVal c3, hexDigitVal d2 with
            | some ha2, some hb2, some hc2, some hd2 =>
              let n2 := ((ha2 * 16 + hb2) * 16 + hc2) * 16 + hd2
              if 0xDC00 ≤ n2 && n2 ≤ 0xDFFF then
                .ok (Char.ofNat (0x10000 + (n - 0xD800) * 0x400 + (n2 - 0xDC00)), r4)
              else .ok (Char.ofNat n, r3)
            | _, _, _, _ => .ok (Char.ofNat n, r3)
          | _ => .ok (Char.ofNat n, r3)
        else .ok (Char.ofNat n, r3)
      | _, _, _, _ => .error "Invalid unicode escape"
    | _ => .error "Invalid unicode escape"
  else .error "Invalid escape"

/-- JSON string body scanner (called after the opening double quote):
returns the decoded characters and the rest after the closing quote. -/
def pStr : Nat → List Char → Except String (List Char × List Char)
  | 0, _ => .error "Unterminated string"
  | _ + 1, [] => .error "Unterminated string"
  | fuel + 1, c :: r =>
    if c == '"' then .ok ([], r)
    else if c == '\\' then
      match r with
      | [] => .error "Unterminated string"
      | e :: r2 =>
        match decodeEsc e r2 with
        | .error msg => .error msg
        | .ok (ch, r3) =>
          match pStr fuel r3 with
          | .error msg => .error msg
          | .ok (s, rr) => .ok (ch :: s, rr)
    else if c.toNat < 0x20 then .error "Invalid control character"
    else
      match pStr fuel r with
      | .error msg => .error msg
      | .ok (s, rr) => .ok (c :: s, rr)

/-- Work item of the JSON scanner: a value to read, an object or array
just opened, or an object member list or array element list being read
with the members accumulated so far.  Packing all states into one
recursive function keeps the scanner structurally recursive on fuel. -/
inductive JTask where
  | val : JTask
  | objStart : JTask
  | members (acc : List (List Char × Json)) : JTask
  | arrStart : JTask
  | elems (acc : List Json) : JTask

/-- JSON scanner modelling the Python json decoder: skips leading
whitespace and dispatches on the first character; objects and arrays are
read by continuing with the matching work item. -/
def jsonScan : Nat → JTask → List Char → Except String (Json × List Char)
  | 0, _, _ => .error "Expecting value"
  | fuel + 1, JTask.val, cs =>
    match skipWs cs with
    | [] => .error "Expecting value"
    | c :: rest =>
      if c == '\x7b' then jsonScan fuel JTask.objStart rest
      else if c == '[' then jsonScan fuel JTask.arrStart rest
      else if c == '"' then
        match pStr (rest.length + 1) rest with
        | .error e => .error e
        | .ok (s, r) => .ok (Json.str s, r)
      else if c == 't' then
        if "rue".data.isPrefixOf rest then .ok (Json.bool true, rest.drop 3)
        else .error "Expecting value"
      else if c == 'f' then
        if "alse".data.isPrefixOf rest then .ok (Json.bool false, rest.drop 4)
        else .error "Expecting value"
      else if c == 'n' then
        if "ull".data.isPrefixOf rest then .ok (Json.null, rest.drop 3)
        else .error "Expecting value"
      else if c == '-' || c.isDigit then
        match pNum (c :: rest) with
        | .error e => .error e
        | .ok (q, r) => .ok (Json.num q, r)
      else .error "Expecting value"
  | fuel + 1, JTask.objStart, cs =>
    match skipWs cs with
    | '\x7d' :: r => .ok (Json.obj [], r)
    | other => jsonScan fuel (JTask.members []) other
  | fuel + 1, JTask.members acc, cs =>
    match skipWs cs with
    | '"' :: r =>
      match pStr (r.length + 1) r with
      | .error e => .error e
      | .ok (k, r1) =>
        match skipWs r1 with
        | ':' :: r2 =>
          match jsonScan fuel JTask.val r2 with
          | .error e => .error e
          | .ok (v, r3) =>
            match skipWs r3 with
            | ',' :: r4 => jsonScan fuel (JTask.members (acc ++ [(k, v)])) r4
            | '\x7d' :: r4 => .ok (Json.obj (acc ++ [(k, v)]), r4)
            | _ => .error "Expecting comma delimiter"
        | _ => .error "Expecting colon delimiter"
    | _ => .error "Expecting property name enclosed in double quotes"
  | fuel + 1, JTask.arrStart, cs =>
    match skipWs cs with
    | ']' :: r => .ok (Json.arr [], r)
    | other => jsonScan fuel (JTask.elems []) other
  | fuel + 1, JTask.elems acc, cs =>
    match jsonScan fuel JTask.val cs with
    | .error e => .error e
    | .ok (v, r) =>
      match skipWs r with
      | ',' :: r2 => jsonScan fuel (JTask.elems (acc ++ [v])) r2
      | ']' :: r2 => .ok (Json.arr (acc ++ [v]), r2)
      | _ => .error "Expecting comma delimiter"

/-- Model of Python json.loads: parse one JSON value and require that
only whitespace remains. -/
def json_loads (s : List Char) : Except String Json :=
  match jsonScan (4 * s.length + 8) JTask.val s with
  | .error e => .error e
  | .ok (v, rest) =>
    if (skipWs rest).isEmpty then .ok v else .error "Extra data"

/-- Identifier-constituent characters of Python (letters, digits and the
underscore), used to delimit the keywords True, False and None. -/
def isIdentChar (c : Char) : Bool :=
  c.isAlphanum || c == '_'

/-- Whether the character after dropping n characters is an identifier
constituent (so that a keyword match would really be a longer name). -/
def identCharAfter (rest : List Char) (n : Nat) : Bool :=
  match rest.drop n with
  | c :: _ => isIdentChar c
  | [] => false

/-- Decoding of one Python string escape sequence.  Recognized escapes
are decoded; as in Python, an unrecognized escape keeps the backslash
followed by the character (returned with the backslash re-emitted via
the extra first component). -/
def decodePyEsc (e : Char) (r2 : List Char) : List Char × List Char :=
  if e == '\x27' then (['\x27'], r2)
  else if e == '"' then (['"'], r2)
  else if e == '\\' then (['\\'], r2)
  else if e == 'n' then (['\n'], r2)
  else if e == 't' then (['\t'], r2)
  else if e == 'r' then (['\r'], r2)
  else if e == 'b' then (['\x08'], r2)
  else if e == 'f' then (['\x0c'], r2)
  else if e == 'v' then (['\x0b'], r2)
  else if e == '0' then (['\x00'], r2)
  else if e == 'x' then
    match r2 with
    | a :: b :: r3 =>
      match hexDigitVal a, hexDigitVal b with
      | some ha, some hb => ([Char.ofNat (ha * 16 + hb)], r3)
      | _, _ => (['\\', 'x'], r2)
    | _ => (['\\', 'x'], r2)
  else if e == 'u' then
    match r2 with
    | a :: b :: c :: d :: r3 =>
      match hexDigitVal a, hexDigitVal b, hexDigitVal c, hexDigitVal d with
      | some ha, some hb, some hc, some hd =>
        ([Char.ofNat (((ha * 16 + hb) * 16 + hc) * 16 + hd)], r3)
      | _, _, _, _ => (['\\', 'u'], r2)
    | _ => (['\\', 'u'], r2)
  else (['\\', e], r2)

/-- Python string literal body scanner for the given quote character
(called after the opening quote): returns the decoded characters and the
rest after the closing quote.  A bare newline inside the literal is a
syntax error, as in Python source text. -/
def pPyStr (q : Char) : Nat → List Char → Except String (List Char × List Char)
  | 0, _ => .error "malformed string"
  | _ + 1, [] => .error "malformed string"
  | fuel + 1, c :: r =>
    if c == q then .ok ([], r)
    else if c == '\\' then
      match r with
      | [] => .error "malformed string"
      | e :: r2 =>
        let (chs, r3) := decodePyEsc e r2
        match pPyStr q fuel r3 with
        | .error msg => .error msg
        | .ok (s, rr) => .ok (chs ++ s, rr)
    else if c == '\n' then .error "malformed string"
    else
      match pPyStr q fuel r with
      | .error msg => .error msg
      | .ok (s, rr) => .ok (c :: s, rr)

/-- Python numeric literal scanning (unsigned part): digits with an
optional fraction such as 2.5, .5 or 5., and an optional exponent. -/
def pPyNum (cs : List Char) : Except String (ℚ × List Char) :=
  let (intDs, r1) := spanDigits cs
  let (fracDs, r2, okNum) :=
    match r1 with
    | '.' :: rr =>
      let (fs, rrest) := spanDigits rr
      (fs, rrest, !(intDs.isEmpty && fs.isEmpty))
    | _ => (([] : List Char), r1, !intDs.isEmpty)
  if !okNum then .error "malformed node"
  else
    let (expNeg, expDs, r3) :=
      match r2 with
      | e :: rr =>
        if e == 'e' || e == 'E' then
          match rr with
          | '+' :: rr2 =>
            let (es, rrest) := spanDigits rr2
            if es.isEmpty then (false, ([] : List Char), r2) else (false, es, rrest)
          | '-' :: rr2 =>
            let (es, rrest) := spanDigits rr2
            if es.isEmpty then (false, ([] : List Char), r2) else (true, es, rrest)
          | _ =>
            let (es, rrest) := spanDigits rr
            if es.isEmpty then (false, ([] : List Char), r2) else (false, es, rrest)
        else (false, [], r2)
      | [] => (false, [], r2)
    let mantissa : ℚ :=
      if fracDs.isEmpty then (digitsVal intDs : ℚ)
      else (digitsVal (intDs ++ fracDs) : ℚ) / (10 : ℚ) ^ fracDs.length
    let scaled : ℚ :=
      if expDs.isEmpty then mantissa
      else if expNeg then mantissa / (10 : ℚ) ^ digitsVal expDs
      else mantissa * (10 : ℚ) ^ digitsVal expDs
    .ok (scaled, r3)

/-- Work item of the Python literal scanner: a value, a bracketed
sequence (list or tuple) being read, or a dict being read. -/
inductive LTask where
  | val : LTask
  | seq (close : Char) (acc : List Json) : LTask
  | dict (acc : List (List Char × Json)) : LTask

/-- Python literal scanner modelling the subset of ast.literal_eval the
repository can meet: strings with either quote, numbers with optional
sign, True, False, None, lists, tuples and dicts with trailing commas.
Dict keys are restricted to string literals (the only shape produced by
the AI prompts); a parenthesized single value without a comma is the
value itself, as in Python. -/
def litScan : Nat → LTask → List Char → Except String (Json × List Char)
  | 0, _, _ => .error "malformed node"
  | fuel + 1, LTask.val, cs =>
    match skipWs cs with
    | [] => .error "malformed node"
    | c :: rest =>
      if c == '\x7b' then
        match skipWs rest with
        | '\x7d' :: r => .ok (Json.obj [], r)
        | other => litScan fuel (LTask.dict []) other
      else if c == '[' then
        match skipWs rest with
        | ']' :: r => .ok (Json.arr [], r)
        | other => litScan fuel (LTask.seq ']' []) other
      else if c == '(' then
        match skipWs rest with
        | ')' :: r => .ok (Json.arr [], r)
        | other => litScan fuel (LTask.seq ')' []) other
      else if c == '"' || c == '\x27' then
        match pPyStr c (rest.length + 1) rest with
        | .error e => .error e
        | .ok (s, r) => .ok (Json.str s, r)
      else if c == 'T' then
        if "rue".data.isPrefixOf rest && !identCharAfter rest 3 then
          .ok (Json.bool true, rest.drop 3)
        else .error "malformed node"
      else if c == 'F' then
        if "alse".data.isPrefixOf rest && !identCharAfter rest 4 then
          .ok (Json.bool false, rest.drop 4)
        else .error "malformed node"
      else if c == 'N' then
        if "one".data.isPrefixOf rest && !identCharAfter rest 3 then
          .ok (Json.null, rest.drop 3)
        else .error "malformed node"
      else if c == '-' then
        match pPyNum rest with
        | .error e => .error e
        | .ok (q, r) => .ok (Json.num (-q), r)
      else if c == '+' then
        match pPyNum rest with
        | .error e => .error e
        | .ok (q, r) => .ok (Json.num q, r)
      else if c == '.' || c.isDigit then
        match pPyNum (c :: rest) with
        | .error e => .error e
        | .ok (q, r) => .ok (Json.num q, r)
      else .error "malformed node"
  | fuel + 1, LTask.seq close acc, cs =>
    match litScan fuel LTask.val cs with
    | .error e => .error e
    | .ok (v, r) =>
      match skipWs r with
      | ',' :: r2 =>
        match skipWs r2 with
        | c :: r3 =>
          if c == close then .ok (Json.arr (acc ++ [v]), r3)
          else litScan fuel (LTask.seq close (acc ++ [v])) (c :: r3)
        | [] => .error "malformed node"
      | c :: r2 =>
        if c == close then
          if close == ')' && acc.isEmpty then .ok (v, r2)
          else .ok (Json.arr (acc ++ [v]), r2)
        else .error "malformed node"
      | [] => .error "malformed node"
  | fuel + 1, LTask.dict acc, cs =>
    match litScan fuel LTask.val cs with
    | .error e => .error e
    | .ok (k, r) =>
      match k with
      | Json.str ks =>
        match skipWs r with
        | ':' :: r2 =>
          match litScan fuel LTask.val r2 with
          | .error e => .error e
          | .ok (v, r3) =>
            match skipWs r3 with
            | ',' :: r4 =>
              match skipWs r4 with
              | '\x7d' :: r5 => .ok (Json.obj (acc ++ [(ks, v)]), r5)
              | other => litScan fuel (LTask.dict (acc ++ [(ks, v)])) other
            | '\x7d' :: r4 => .ok (Json.obj (acc ++ [(ks, v)]), r4)
            | _ => .error "malformed node"
        | _ => .error "malformed node"
      | _ => .error "malformed node"

/-- Model of Python ast.literal_eval on the literal subset above: parse
one literal and require that only whitespace remains. -/
def ast_literal_eval (s : List Char) : Except String Json :=
  match litScan (4 * s.length + 8) LTask.val s with
  | .error e => .error e
  | .ok (v, rest) =>
    if (skipWs rest).isEmpty then .ok v else .error "malformed node"

/-- HTTP error raised by the backend, carrying a status code and a
detail message, as fastapi HTTPException does. -/
structure HTTPErr where
  status_code : Nat
  detail : String
  deriving DecidableEq

/-- Cleaning step of parse_ai_json_response: strip whitespace, and when
the response opens a fenced code block, keep what stands between the
first pair of fence markers, dropping a leading json language tag. -/
def clean_response (ai_response : List Char) : List Char :=
  let cleaned := pyStrip ai_response
  let cleaned :=
    if "```".data.isPrefixOf cleaned then
      let c1 := (py_split cleaned "```".data).getD 1 []
      if "json".data.isPrefixOf c1 then c1.drop 4 else c1
    else cleaned
  pyStrip cleaned

/-- Attempt 2 of parse_ai_json_response.  The source calls re.sub with a
pattern matching a single unescaped newline inside a string value and a
replacement template that itself denotes a newline character, so the
substitution rewrites each matched newline to a newline: the
transformation is the identity on every input. -/
def fix_newlines (cleaned : List Char) : List Char := cleaned

/-- Attempt 3 of parse_ai_json_response: the substring from the first
opening brace to the last closing brace, when both occur. -/
def extract_portion (cleaned : List Char) : Option (List Char) :=
  match findSub ['\x7b'] cleaned, lastIdxOf '\x7d' cleaned with
  | some s, some e => some ((cleaned.drop s).take (e + 1 - s))
  | _, _ => none

/-- Error message head of parse_ai_json_response. -/
def PARSE_FAIL_HEAD : String := "AI response was not valid JSON. Please try again. Error: "

/-- Attempt 4 of parse_ai_json_response, shared by the two control paths
that reach it: substitute Python spellings for the JSON literal tokens,
run ast.literal_eval, and on failure raise the server error carrying the
parse error of attempt 1. -/
def attempt_literal (cleaned : List Char) (e1 : String) : Except HTTPErr Json :=
  let py_str :=
    pyReplace (pyReplace (pyReplace cleaned "true".data "True".data)
      "false".data "False".data) "null".data "None".data
  match ast_literal_eval py_str with
  | .ok v => .ok v
  | .error _ => .error ⟨500, PARSE_FAIL_HEAD ++ e1⟩

/-- Model of parse_ai_json_response: clean the response, then try the
four strategies in order, stopping at the first success. -/
def parse_ai_json_response (ai_response : List Char) : Except HTTPErr Json :=
  let cleaned := clean_response ai_response
  match json_loads cleaned with
  | .ok v => .ok v
  | .error e1 =>
    match json_loads (fix_newlines cleaned) with
    | .ok v => .ok v
    | .error _ =>
      match extract_portion cleaned with
      | some portion =>
        match json_loads portion with
        | .ok v => .ok v
        | .error _ => attempt_literal cleaned e1
      | none => attempt_literal cleaned e1

/-- Model of the truthiness test bool(key and key.strip()) used by
AIService._detect_provider: a key counts as present when it is set and
not blank. -/
def hasKey : Option String → Bool
  | none => false
  | some s => !(String.mk (pyStrip s.data)).isEmpty

/-- Model of AIService._detect_provider: prefer openai when its key is
present (also when both are), else genai, else none. -/
def detect_provider (openai_api_key genai_api_key : Option String) : String :=
  let has_openai := hasKey openai_api_key
  let has_genai := hasKey genai_api_key
  if has_openai && has_genai then "openai"
  else if has_openai then "openai"
  else if has_genai then "genai"
  else "none"

/-- Error string returned by AIService.generate_text when no provider is
configured. -/
def NO_KEY_MSG : String :=
  "Error: No AI API key configured. Please set OPENAI_API_KEY or GENAI_API_KEY in your .env file."

/-- Model of AIService.generate_text.  The outcome of the one network
call the selected backend would make is passed in as backend: ok is the
returned completion text, error is an exception raised by the client
library, which the gateway converts into a provider-prefixed error
string instead of re-raising.  With provider none no backend outcome is
consulted at all. -/
def generate_text (provider : String) (backend : Except String String) : String :=
  if provider == "none" then NO_KEY_MSG
  else if provider == "openai" then
    match backend with
    | .ok t => t
    | .error e => "OpenAI Error: " ++ e
  else if provider == "genai" then
    match backend with
    | .ok t => t
    | .error e => "GenAI Error: " ++ e
  else "Error: Invalid AI Provider configuration."

/-- Model of AIService.generate_embedding: returns the backend vector,
and none when no provider is configured or the backend call raised; the
exception is logged and converted, never propagated. -/
def generate_embedding (provider : String) (backend : Except String (List ℚ)) : Option (List ℚ) :=
  if provider == "none" then none
  else if provider == "openai" then
    match backend with
    | .ok v => some v
    | .error _ => none
  else if provider == "genai" then
    match backend with
    | .ok v => some v
    | .error _ => none
  else none

/-- Similarity score of search_knowledge_base_internal and
search_knowledge_base: max(0, 1 - distance) over the cosine distance. -/
def similarity (d : ℚ) : ℚ := max 0 (1 - d)

/-- Rounding of a rational to the nearest integer with ties to even, the
rule of Python round. -/
def roundHalfEven (x : ℚ) : ℤ :=
  if x - (Rat.floor x : ℚ) < 1 / 2 then Rat.floor x
  else if 1 / 2 < x - (Rat.floor x : ℚ) then Rat.floor x + 1
  else if Rat.floor x % 2 = 0 then Rat.floor x else Rat.floor x + 1

/-- Model of Python round(x, 4): round to four decimal places, ties to
even. -/
def round4 (x : ℚ) : ℚ := ((roundHalfEven (x * 10000) : ℤ) : ℚ) / 10000

/-- One row fetched by the similarity-search SQL of
search_knowledge_base_internal: the embedding metadata joined with its
knowledge base, and the cosine distance of the stored vector from the
query vector. -/
structure SearchRow where
  kb_id : Nat
  section_title : String
  kb_name : String
  domain : String
  description : Option String
  markdown_filename : String
  distance : ℚ

/-- One entry of the result list of search_knowledge_base_internal. -/
structure SearchResultEntry where
  kb_id : Nat
  kb_name : String
  kb_domain : String
  description : String
  content : String
  similarity_score : ℚ

/-- Result entry built by search_knowledge_base_internal for a row that
passes the threshold. -/
def row_to_result (read_markdown : String → String) (row : SearchRow) : SearchResultEntry :=
  { kb_id := row.kb_id
    kb_name := row.kb_name
    kb_domain := row.domain
    description := row.description.getD ""
    content := read_markdown row.markdown_filename
    similarity_score := round4 (similarity row.distance) }

/-- Model of the scoring and filtering stage of
search_knowledge_base_internal: the rows fetched by the SQL query are
scored with max(0, 1 - distance), rows strictly below min_score are
skipped, and each surviving row is returned with its markdown content
and its score rounded to four decimal places.  Reading the markdown file
is modelled by the read_markdown parameter (the source leaves content
empty when the read raises, which a total function also covers). -/
def search_knowledge_base_internal (read_markdown : String → String)
    (rows : List SearchRow) (min_score : ℚ) : List SearchResultEntry :=
  rows.filterMap (fun row =>
    if similarity row.distance < min_score then none
    else some (row_to_result read_markdown row))

/-- Knowledge base row of the knowledge_bases table
(models/knowledge_base.py). -/
structure KnowledgeBaseRec where
  id : Nat
  name : String
  domain : String
  description : Option String
  json_filename : Option String
  markdown_filename : String
  original_filename : String
  version : Nat
  created_at : Nat
  updated_at : Nat
  created_by_id : Nat
  updated_by_id : Nat
  deriving DecidableEq

/-- Embedding row of the knowledge_embeddings table
(models/knowledge_base.py). -/
structure KnowledgeEmbeddingRec where
  id : Nat
  kb_id : Nat
  section_address : String
  section_title : String
  embedding : List ℚ
  created_at : Nat

/-- Database state visible to the knowledge-base router: the two tables
and the id the next inserted embedding row receives. -/
structure DBState where
  kbs : List KnowledgeBaseRec
  knowledge_embeddings : List KnowledgeEmbeddingRec
  next_embedding_id : Nat

/-- Text submitted to the embedding provider by
generate_and_store_embedding_from_markdown: the markdown truncated to
the conservative limit of 8000 characters. -/
def embed_text_of (markdown_content : List Char) : List Char :=
  if markdown_content.length > 8000 then markdown_content.take 8000 else markdown_content

/-- Model of generate_and_store_embedding_from_markdown: delete every
embedding row of the entry, truncate the markdown to 8000 characters,
call the embedding provider, and if it yields a vector insert exactly
one new row and return 1, else return 0 with nothing inserted.  The
provider is the generate_embedding_fn parameter. -/
def generate_and_store_embedding_from_markdown (st : DBState) (kb_id : Nat) (kb_name : String)
    (markdown_content : List Char) (generate_embedding_fn : List Char → Option (List ℚ))
    (now : Nat) : DBState × Nat :=
  let st1 : DBState :=
    { st with knowledge_embeddings := st.knowledge_embeddings.filter (fun e => e.kb_id != kb_id) }
  match generate_embedding_fn (embed_text_of markdown_content) with
  | none => (st1, 0)
  | some v =>
    ({ st1 with
        knowledge_embeddings := st1.knowledge_embeddings ++
          [{ id := st1.next_embedding_id, kb_id := kb_id, section_address := "root",
             section_title := kb_name, embedding := v, created_at := now }]
        next_embedding_id := st1.next_embedding_id + 1 }, 1)

/-- Text of FORMAT_TO_MARKDOWN_PROMPT before its content placeholder. -/
def FORMAT_PROMPT_HEAD : List Char :=
  ("Convert the following text into well-formatted markdown documentation.\n\n" ++
   "INSTRUCTIONS:\n" ++
   "1. Add appropriate headers (# ## ###) to organize the content hierarchically\n" ++
   "2. Use bullet points or numbered lists where appropriate\n" ++
   "3. Use **bold** for important terms and concepts\n" ++
   "4. Use `code` formatting for technical terms, file names, or code references\n" ++
   "5. Add horizontal rules (---) to separate major sections if needed\n" ++
   "6. Preserve all the original information - do not summarize or remove content\n" ++
   "7. Make the document easy to read and navigate\n\n" ++
   "TEXT TO FORMAT:\n").data

/-- Text of FORMAT_TO_MARKDOWN_PROMPT after its content placeholder. -/
def FORMAT_PROMPT_TAIL : List Char :=
  "\n\nOUTPUT: Return ONLY the formatted markdown, no explanations or code blocks wrapping.".data

/-- Prompt built by FORMAT_TO_MARKDOWN_PROMPT.format for the given
(possibly truncated) content. -/
def format_prompt (format_content : List Char) : List Char :=
  FORMAT_PROMPT_HEAD ++ format_content ++ FORMAT_PROMPT_TAIL

/-- Separator inserted before the untruncated remainder of an oversized
source. -/
def ADDITIONAL_CONTENT_HEAD : List Char :=
  "\n\n---\n\n## Additional Content\n\n".data

/-- Model of the markdown-normalization branch shared by
upload_knowledge_base (lines 427 to 450) and reprocess_knowledge_base
(lines 751 to 766) for .txt and .pdf sources: truncate the content to
30000 characters, format it via the AI text generator, fall back to the
original content when the generator raises (the error branch of
generate_text_fn) or returns a string starting with the marker Error:,
and append the untruncated remainder when the source was truncated. -/
def format_txt_pdf_to_markdown (content : List Char)
    (generate_text_fn : List Char → Except String (List Char)) : List Char :=
  match generate_text_fn
      (format_prompt (if content.length > 30000 then content.take 30000 else content)) with
  | .error _ => content
  | .ok markdown_content =>
    if "Error:".data.isPrefixOf markdown_content then content
    else if content.length > 30000 then
      markdown_content ++ ADDITIONAL_CONTENT_HEAD ++ content.drop 30000
    else markdown_content

/-- Extension part of Python os.path.splitext: the suffix from the last
dot of the basename, except that leading dots of the basename never
start an extension. -/
def splitext_ext (p : List Char) : List Char :=
  let sepI : Int := match lastIdxOf '/' p with | none => -1 | some i => (i : Int)
  let dotI : Int := match lastIdxOf '.' p with | none => -1 | some i => (i : Int)
  if sepI < dotI then
    let start := (sepI + 1).toNat
    let mid := (p.drop start).take (dotI.toNat - start)
    if mid.any (fun c => c != '.') then p.drop dotI.toNat else []
  else []

/-- Lower-cased extension, as computed by the router via
os.path.splitext(filename)[1].lower(). -/
def ext_of (filename : List Char) : List Char :=
  (splitext_ext filename).map Char.toLower

/-- Set of file extensions the router accepts. -/
def ALLOWED_EXTENSIONS : List (List Char) :=
  [".txt".data, ".md".data, ".pdf".data]

/-- UTF-8 decoding with validation: rejects stray continuation bytes,
overlong forms, surrogate code points and values beyond U+10FFFF, as
Python bytes.decode("utf-8") does. -/
def utf8Decode : List Nat → Option (List Char)
  | [] => some []
  | b :: bs =>
    if b ≤ 0x7F then (utf8Decode bs).map (fun r => Char.ofNat b :: r)
    else if 0xC2 ≤ b ∧ b ≤ 0xDF then
      match bs with
      | b2 :: bs2 =>
        if 0x80 ≤ b2 ∧ b2 ≤ 0xBF then
          (utf8Decode bs2).map (fun r => Char.ofNat ((b - 0xC0) * 64 + (b2 - 0x80)) :: r)
        else none
      | [] => none
    else if 0xE0 ≤ b ∧ b ≤ 0xEF then
      match bs with
      | b2 :: b3 :: bs3 =>
        let lo2 := if b = 0xE0 then 0xA0 else 0x80
        let hi2 := if b = 0xED then 0x9F else 0xBF
        if (lo2 ≤ b2 ∧ b2 ≤ hi2) ∧ (0x80 ≤ b3 ∧ b3 ≤ 0xBF) then
          (utf8Decode bs3).map
            (fun r => Char.ofNat ((b - 0xE0) * 4096 + (b2 - 0x80) * 64 + (b3 - 0x80)) :: r)
        else none
      | _ => none
    else if 0xF0 ≤ b ∧ b ≤ 0xF4 then
      match bs with
      | b2 :: b3 :: b4 :: bs4 =>
        let lo2 := if b = 0xF0 then 0x90 else 0x80
        let hi2 := if b = 0xF4 then 0x8F else 0xBF
        if (lo2 ≤ b2 ∧ b2 ≤ hi2) ∧ (0x80 ≤ b3 ∧ b3 ≤ 0xBF) ∧ (0x80 ≤ b4 ∧ b4 ≤ 0xBF) then
          (utf8Decode bs4).map
            (fun r => Char.ofNat ((b - 0xF0) * 262144 + (b2 - 0x80) * 4096 + (b3 - 0x80) * 64 + (b4 - 0x80)) :: r)
        else none
      | _ => none
    else none

/-- Latin-1 decoding: every byte maps to the character of its code
point, so this decoding is total. -/
def latin1Decode (bs : List Nat) : List Char :=
  bs.map Char.ofNat

/-- Model of extract_content_from_file.  The pypdf page extraction is an
external capability, modelled by the pdf_extract parameter (none when
the library is not installed, and an error result when extraction
raises). -/
def extract_content_from_file (filename : List Char) (content : List Nat)
    (pdf_extract : Option (List Nat → Except String (List Char))) :
    Except HTTPErr (List Char) :=
  let ext := ext_of filename
  if ext = ".txt".data ∨ ext = ".md".data then
    match utf8Decode content with
    | some s => .ok s
    | none => .ok (latin1Decode content)
  else if ext = ".pdf".data then
    match pdf_extract with
    | some f =>
      match f content with
      | .ok t => .ok t
      | .error e => .error ⟨400, "Error reading PDF: " ++ e⟩
    | none =>
      .error ⟨500, "PDF processing requires pypdf library. Please install it or upload TXT/MD files."⟩
  else
    .error ⟨400, "Unsupported file type: " ++ String.mk ext ++ ". Allowed: .txt, .md, .pdf"⟩

/-- Field assignment performed by reprocess_knowledge_base on the
fetched row: drop the legacy json reference, point at the new markdown
key, record the uploaded file name, bump the version, stamp the
updater. -/
def reprocessed_kb (kb : KnowledgeBaseRec) (file_filename : List Char)
    (new_markdown_filename : String) (current_user_id now : Nat) : KnowledgeBaseRec :=
  { kb with
      json_filename := none
      markdown_filename := new_markdown_filename
      original_filename := String.mk file_filename
      version := kb.version + 1
      updated_by_id := current_user_id
      updated_at := now }

/-- Markdown stored by reprocess_knowledge_base: .txt and .pdf sources
are normalized through the AI formatting branch, .md sources are stored
as extracted. -/
def reprocess_markdown (ext content : List Char)
    (generate_text_fn : List Char → Except String (List Char)) : List Char :=
  if ext = ".txt".data ∨ ext = ".pdf".data then
    format_txt_pdf_to_markdown content generate_text_fn
  else content

/-- Model of reprocess_knowledge_base after permission checking: look up
the entry, validate the extension and non-emptiness of the extracted
content, normalize the content to markdown, replace the file references
and bump the version, commit, and regenerate the embedding (whose
failure is swallowed).  The freshly generated storage key is the
new_markdown_filename parameter; none models the error responses. -/
def reprocess_knowledge_base (st : DBState) (kb_id : Nat)
    (file_filename : List Char) (new_markdown_filename : String)
    (content : List Char)
    (generate_text_fn : List Char → Except String (List Char))
    (generate_embedding_fn : List Char → Option (List ℚ))
    (current_user_id : Nat) (now : Nat) : Option (DBState × KnowledgeBaseRec) :=
  match st.kbs.find? (fun k => k.id == kb_id) with
  | none => none
  | some kb =>
    if ext_of file_filename ∈ ALLOWED_EXTENSIONS then
      if (pyStrip content).isEmpty then none
      else
        some ((generate_and_store_embedding_from_markdown
          { st with kbs := st.kbs.map (fun k =>
              if k.id == kb_id then
                reprocessed_kb kb file_filename new_markdown_filename current_user_id now
              else k) }
          kb_id kb.name
          (reprocess_markdown (ext_of file_filename) content generate_text_fn)
          generate_embedding_fn now).1,
          reprocessed_kb kb file_filename new_markdown_filename current_user_id now)
    else none

/-- Update payload of the metadata endpoint
(schemas KnowledgeBaseUpdate): all fields optional. -/
structure KnowledgeBaseUpdate where
  name : Option String
  domain : Option String
  description : Option String

/-- Field assignment performed by update_knowledge_base on the fetched
row: the three optional payload fields when present, then the updater
identity and timestamp. -/
def apply_kb_update (kb : KnowledgeBaseRec) (u : KnowledgeBaseUpdate)
    (current_user_id now : Nat) : KnowledgeBaseRec :=
  let kb1 := match u.name with | some n => { kb with name := n } | none => kb
  let kb2 := match u.domain with | some d => { kb1 with domain := d } | none => kb1
  let kb3 := match u.description with | some d => { kb2 with description := some d } | none => kb2
  { kb3 with updated_by_id := current_user_id, updated_at := now }

/-- Model of update_knowledge_base after permission checking: look up
the entry and apply the metadata update; none models the 404 response.
No other table is touched. -/
def update_knowledge_base (st : DBState) (kb_id : Nat) (u : KnowledgeBaseUpdate)
    (current_user_id now : Nat) : Option DBState :=
  match st.kbs.find? (fun k => k.id == kb_id) with
  | none => none
  | some _ =>
    some { st with
            kbs := st.kbs.map
              (fun k => if k.id == kb_id then apply_kb_update k u current_user_id now else k) }

/-- Similarity evaluates to 1 - d when the distance is at most 1. -/
theorem similarity_of_le_one (d : ℚ) (h : d ≤ 1) : similarity d = 1 - d := by
  unfold similarity
  exact max_eq_right (by linarith)

/-- Similarity evaluates to 0 when the distance is at least 1. -/
theorem similarity_of_one_le (d : ℚ) (h : 1 ≤ d) : similarity d = 0 := by
  unfold similarity
  exact max_eq_left (by linarith)

/-- Rounding a rational whose fractional part is below one half takes
the floor. -/
theorem roundHalfEven_eq_floor (x : ℚ) (f : ℤ) (h1 : (f : ℚ) ≤ x) (h2 : x < f + 1)
    (h3 : x - (f : ℚ) < 1 / 2) : roundHalfEven x = f := by
  have hle : f ≤ Rat.floor x := Rat.le_floor.mpr h1
  have hlt : Rat.floor x < f + 1 := by
    by_contra hc
    push_neg at hc
    have hx := Rat.le_floor.mp hc
    push_cast at hx
    linarith
  have hf : Rat.floor x = f := by omega
  unfold roundHalfEven
  rw [hf, if_pos h3]

/-- C1: the similarity score s(d) = max(0, 1 - d) of the search
endpoints is claimed to be monotonically non-increasing in the cosine
distance d and to lie in the interval from 0 to 1 for any real-valued d.
The second half fails: the code clamps only from below, so a negative
distance yields a score above 1. -/
theorem C1_similarity_counterexample : (1 : ℚ) < similarity (-1) := by
  rw [similarity_of_le_one (-1) (by norm_num)]
  norm_num

/-- C1 amended: the similarity score is monotonically non-increasing in
the distance, is never negative, and is at most 1 whenever the distance
is nonnegative (as every cosine distance is); the bound above 1 fails
only for negative distances. -/
theorem C1_similarity_amended :
    (∀ d1 d2 : ℚ, d1 ≤ d2 → similarity d2 ≤ similarity d1) ∧
    (∀ d : ℚ, 0 ≤ similarity d) ∧
    (∀ d : ℚ, 0 ≤ d → similarity d ≤ 1) := by
  refine ⟨?_, ?_, ?_⟩
  · intro d1 d2 h
    exact max_le_max le_rfl (by linarith)
  · intro d
    exact le_max_left 0 _
  · intro d hd
    exact max_le (by norm_num) (by linarith)

/-- Witness for C1 amended at concrete distances. -/
theorem C1_similarity_witness :
    similarity 1 ≤ similarity 0 ∧ 0 ≤ similarity (-5) ∧ similarity (1 / 2) ≤ 1 :=
  ⟨C1_similarity_amended.1 0 1 (by norm_num), C1_similarity_amended.2.1 (-5),
   C1_similarity_amended.2.2 (1 / 2) (by norm_num)⟩

/-- C4: the structured-output parser tries its four strategies in order
and stops at the first success.  On a fenced json payload strategy 1
(fence stripping plus direct parse) already succeeds; on a payload
wrapped in prose strategy 1 fails and strategy 3 (substring from the
first opening to the last closing brace) succeeds; on text from which no
strategy recovers an object it raises a server error with status 500
whose detail includes the parse error of the first attempt. -/
theorem C4_parser_strategies :
    parse_ai_json_response "```json\n\x7b\"a\":1\x7d\n```".data
      = .ok (Json.obj [("a".data, Json.num 1)]) ∧
    json_loads (clean_response "```json\n\x7b\"a\":1\x7d\n```".data)
      = .ok (Json.obj [("a".data, Json.num 1)]) ∧
    parse_ai_json_response "noise\x7b\"a\":1\x7dtrailing".data
      = .ok (Json.obj [("a".data, Json.num 1)]) ∧
    (∃ e, json_loads (clean_response "noise\x7b\"a\":1\x7dtrailing".data) = .error e) ∧
    (∃ e, json_loads (fix_newlines (clean_response "noise\x7b\"a\":1\x7dtrailing".data)) = .error e) ∧
    extract_portion (clean_response "noise\x7b\"a\":1\x7dtrailing".data)
      = some "\x7b\"a\":1\x7d".data ∧
    json_loads "\x7b\"a\":1\x7d".data = .ok (Json.obj [("a".data, Json.num 1)]) ∧
    parse_ai_json_response "The answer is unavailable.".data
      = .error ⟨500, PARSE_FAIL_HEAD ++ "Expecting value"⟩ ∧
    json_loads (clean_response "The answer is unavailable.".data) = .error "Expecting value" :=
  ⟨rfl, rfl, rfl, ⟨"Expecting value", rfl⟩, ⟨"Expecting value", rfl⟩, rfl, rfl, rfl, rfl⟩

/-- C5: the claim says that whenever the AI text generator reports an
error string or raises, the stored markdown is the original extracted
text.  The gateway converts a backend exception into the string
"OpenAI Error: ..." (or "GenAI Error: ..."), but the ingestion code only
recognizes the marker "Error:" at the start of the reply, so a
provider-prefixed error string is stored verbatim as the canonical
markdown instead of the original content. -/
theorem C5_error_string_stored :
    generate_text "openai" (.error "boom") = "OpenAI Error: boom" ∧
    ("Error:".data.isPrefixOf "OpenAI Error: boom".data) = false ∧
    format_txt_pdf_to_markdown "original text".data (fun _ => .ok "OpenAI Error: boom".data)
      = "OpenAI Error: boom".data ∧
    format_txt_pdf_to_markdown "original text".data (fun _ => .ok "OpenAI Error: boom".data)
      ≠ "original text".data ∧
    format_txt_pdf_to_markdown "original text".data (fun _ => .error "raised")
      = "original text".data ∧
    format_txt_pdf_to_markdown "original text".data (fun _ => .ok NO_KEY_MSG.data)
      = "original text".data :=
  ⟨rfl, rfl, rfl, by decide, rfl, rfl⟩

/-- C6: with neither credential configured the provider is none, every
generation call returns the configuration-error string and every
embedding call returns none without consulting the backend, and the
embedding call converts every backend exception to none for every
provider. -/
theorem C6_provider_none :
    (∀ ok gk : Option String, hasKey ok = false → hasKey gk = false →
      detect_provider ok gk = "none") ∧
    (∀ b : Except String String, generate_text "none" b = NO_KEY_MSG) ∧
    (∀ b : Except String (List ℚ), generate_embedding "none" b = none) ∧
    (∀ (p : String) (e : String), generate_embedding p (.error e) = none) := by
  refine ⟨?_, ?_, ?_, ?_⟩
  · intro ok gk h1 h2
    unfold detect_provider
    rw [h1, h2]
    rfl
  · intro b
    rfl
  · intro b
    rfl
  · intro p e
    unfold generate_embedding
    split
    · rfl
    · split
      · rfl
      · split
        · rfl
        · rfl

/-- Witness for C6 at concrete credentials, backends and exceptions. -/
theorem C6_provider_none_witness :
    detect_provider none (some "   ") = "none" ∧
    generate_text "none" (.ok "hello") = NO_KEY_MSG ∧
    generate_embedding "none" (.ok [1]) = none ∧
    generate_embedding "openai" (.error "boom") = none :=
  ⟨C6_provider_none.1 none (some "   ") rfl rfl,
   C6_provider_none.2.1 (.ok "hello"),
   C6_provider_none.2.2.1 (.ok [1]),
   C6_provider_none.2.2.2 "openai" "boom"⟩

/-- C7: extraction of a .txt or .md upload decodes UTF-8 and falls back
to the total latin-1 decoding, so it never fails; extraction of any
extension outside the allowed set fails with a 400 error naming the
allowed set. -/
theorem C7_extract_decoding :
    (∀ (filename : List Char) (content : List Nat)
      (pdfx : Option (List Nat → Except String (List Char))),
      (ext_of filename = ".txt".data ∨ ext_of filename = ".md".data) →
      ∃ s, extract_content_from_file filename content pdfx = .ok s) ∧
    (∀ (filename : List Char) (content : List Nat)
      (pdfx : Option (List Nat → Except String (List Char))),
      ext_of filename ∉ ALLOWED_EXTENSIONS →
      extract_content_from_file filename content pdfx =
        .error ⟨400, "Unsupported file type: " ++ String.mk (ext_of filename) ++
          ". Allowed: .txt, .md, .pdf"⟩) := by
  constructor
  · intro filename content pdfx h
    unfold extract_content_from_file
    rw [if_pos h]
    cases hu : utf8Decode content with
    | none => exact ⟨latin1Decode content, rfl⟩
    | some s => exact ⟨s, rfl⟩
  · intro filename content pdfx h
    simp only [ALLOWED_EXTENSIONS, List.mem_cons, List.not_mem_nil, or_false, not_or] at h
    obtain ⟨h1, h2, h3⟩ := h
    unfold extract_content_from_file
    rw [if_neg (by tauto), if_neg h3]

/-- Witness for C7: a .txt upload with arbitrary bytes extracts, and a
.docx upload is rejected with the unsupported-type error. -/
theorem C7_extract_witness :
    (∃ s, extract_content_from_file "a.txt".data [104, 105, 255] none = .ok s) ∧
    extract_content_from_file "a.docx".data [104] none =
      .error ⟨400, "Unsupported file type: " ++ String.mk (ext_of "a.docx".data) ++
        ". Allowed: .txt, .md, .pdf"⟩ :=
  ⟨C7_extract_decoding.1 "a.txt".data [104, 105, 255] none (Or.inl (by decide)),
   C7_extract_decoding.2 "a.docx".data [104] none (by decide)⟩

/-- C8: when an oversized .txt or .pdf source is normalized and the AI
formatting call succeeds, only the first 30000 characters are embedded
in the prompt sent to the generator (the result depends on the generator
only at that prompt), and the stored markdown is the AI-formatted head
followed by the untruncated remainder under the Additional Content
heading. -/
theorem C8_truncation_format :
    ∀ (content : List Char) (g : List Char → Except String (List Char)) (md : List Char),
      content.length > 30000 →
      g (format_prompt (content.take 30000)) = .ok md →
      ("Error:".data.isPrefixOf md) = false →
      format_txt_pdf_to_markdown content g = md ++ ADDITIONAL_CONTENT_HEAD ++ content.drop 30000 ∧
      (∀ g2 : List Char → Except String (List Char),
        g2 (format_prompt (content.take 30000)) = g (format_prompt (content.take 30000)) →
        format_txt_pdf_to_markdown content g2 = format_txt_pdf_to_markdown content g) := by
  intro content g md h1 h2 h3
  have hfc : (if content.length > 30000 then content.take 30000 else content)
      = content.take 30000 := if_pos h1
  constructor
  · unfold format_txt_pdf_to_markdown
    rw [hfc, h2]
    simp only [h3, Bool.false_eq_true, if_false]
    rw [if_pos h1]
  · intro g2 hg2
    unfold format_txt_pdf_to_markdown
    rw [hfc, hg2]

/-- Witness for C8 at a 30001-character source and a succeeding
generator. -/
theorem C8_truncation_witness :
    format_txt_pdf_to_markdown (List.replicate 30001 'a') (fun _ => .ok "OK".data)
      = "OK".data ++ ADDITIONAL_CONTENT_HEAD ++ (List.replicate 30001 'a').drop 30000 :=
  (C8_truncation_format (List.replicate 30001 'a') (fun _ => .ok "OK".data) "OK".data
    (by simp only [List.length_replicate]; norm_num) rfl rfl).1

/-- Text submitted for embedding is always the first 8000 characters. -/
theorem embed_text_of_eq_take (l : List Char) : embed_text_of l = l.take 8000 := by
  unfold embed_text_of
  split
  · rfl
  · next h =>
    rw [List.take_of_length_le (by omega)]

/-- C9: only the first 8000 characters of the canonical markdown reach
the embedding provider, so two bodies agreeing on their first 8000
characters submit identical text and produce identical stored states. -/
theorem C9_embed_truncation :
    ∀ (a b : List Char) (st : DBState) (kb_id : Nat) (kb_name : String)
      (e : List Char → Option (List ℚ)) (now : Nat),
      a.take 8000 = b.take 8000 →
      embed_text_of a = embed_text_of b ∧
      generate_and_store_embedding_from_markdown st kb_id kb_name a e now =
        generate_and_store_embedding_from_markdown st kb_id kb_name b e now := by
  intro a b st kb_id kb_name e now h
  have he : embed_text_of a = embed_text_of b := by
    rw [embed_text_of_eq_take, embed_text_of_eq_take, h]
  refine ⟨he, ?_⟩
  unfold generate_and_store_embedding_from_markdown
  rw [he]

/-- Witness for C9 at two 8001-character bodies that differ only in
their last character. -/
theorem C9_embed_truncation_witness :
    embed_text_of (List.replicate 8000 'a' ++ ['x'])
      = embed_text_of (List.replicate 8000 'a' ++ ['y']) ∧
    generate_and_store_embedding_from_markdown ⟨[], [], 1⟩ 7 "KB"
        (List.replicate 8000 'a' ++ ['x']) (fun _ => some [1]) 3 =
      generate_and_store_embedding_from_markdown ⟨[], [], 1⟩ 7 "KB"
        (List.replicate 8000 'a' ++ ['y']) (fun _ => some [1]) 3 :=
  C9_embed_truncation (List.replicate 8000 'a' ++ ['x']) (List.replicate 8000 'a' ++ ['y'])
    ⟨[], [], 1⟩ 7 "KB" (fun _ => some [1]) 3
    (by rw [List.take_append_of_le_length (by simp only [List.length_replicate, le_refl]),
      List.take_append_of_le_length (by simp only [List.length_replicate, le_refl])])

/-- Fields of a knowledge-base row that a metadata update never
touches. -/
theorem apply_kb_update_frame (kb : KnowledgeBaseRec) (u : KnowledgeBaseUpdate)
    (uid now : Nat) :
    (apply_kb_update kb u uid now).id = kb.id ∧
    (apply_kb_update kb u uid now).version = kb.version ∧
    (apply_kb_update kb u uid now).markdown_filename = kb.markdown_filename ∧
    (apply_kb_update kb u uid now).json_filename = kb.json_filename ∧
    (apply_kb_update kb u uid now).original_filename = kb.original_filename ∧
    (apply_kb_update kb u uid now).created_at = kb.created_at ∧
    (apply_kb_update kb u uid now).created_by_id = kb.created_by_id := by
  unfold apply_kb_update
  cases u.name <;> cases u.domain <;> cases u.description <;> simp

/-- C10: a metadata update modifies at most the name, domain,
description, updater identity and update timestamp of the addressed
entry; its identifier, version, file references, creation data and the
whole embeddings table are unchanged. -/
theorem C10_update_frame :
    ∀ (st : DBState) (kb_id : Nat) (u : KnowledgeBaseUpdate) (uid now : Nat) (st' : DBState),
      update_knowledge_base st kb_id u uid now = some st' →
      st'.knowledge_embeddings = st.knowledge_embeddings ∧
      st'.next_embedding_id = st.next_embedding_id ∧
      ∀ kb' ∈ st'.kbs, ∃ kb ∈ st.kbs,
        kb'.id = kb.id ∧
        kb'.version = kb.version ∧
        kb'.markdown_filename = kb.markdown_filename ∧
        kb'.json_filename = kb.json_filename ∧
        kb'.original_filename = kb.original_filename ∧
        kb'.created_at = kb.created_at ∧
        kb'.created_by_id = kb.created_by_id := by
  intro st kb_id u uid now st' h
  unfold update_knowledge_base at h
  cases hfind : st.kbs.find? (fun k => k.id == kb_id) with
  | none => rw [hfind] at h; exact absurd h (by simp)
  | some kb0 =>
    rw [hfind] at h
    injection h with h
    subst h
    refine ⟨rfl, rfl, ?_⟩
    intro kb' hmem
    simp only [List.mem_map] at hmem
    obtain ⟨kb, hkb, hEq⟩ := hmem
    refine ⟨kb, hkb, ?_⟩
    by_cases hid : kb.id == kb_id
    · rw [if_pos hid] at hEq
      subst hEq
      exact apply_kb_update_frame kb u uid now
    · rw [if_neg hid] at hEq
      subst hEq
      exact ⟨rfl, rfl, rfl, rfl, rfl, rfl, rfl⟩

/-- Witness for C10 at a concrete one-entry state and a name change: the
updated row keeps its identifier, version, file references and creation
data. -/
theorem C10_update_frame_witness :
    ∃ kb ∈ [(⟨1, "KB", "backend", none, none, "m.md", "o.txt", 3, 0, 0, 1, 1⟩ : KnowledgeBaseRec)],
      (apply_kb_update ⟨1, "KB", "backend", none, none, "m.md", "o.txt", 3, 0, 0, 1, 1⟩
          ⟨some "NewName", none, none⟩ 9 5).id = kb.id ∧
      (apply_kb_update ⟨1, "KB", "backend", none, none, "m.md", "o.txt", 3, 0, 0, 1, 1⟩
          ⟨some "NewName", none, none⟩ 9 5).version = kb.version ∧
      (apply_kb_update ⟨1, "KB", "backend", none, none, "m.md", "o.txt", 3, 0, 0, 1, 1⟩
          ⟨some "NewName", none, none⟩ 9 5).markdown_filename = kb.markdown_filename ∧
      (apply_kb_update ⟨1, "KB", "backend", none, none, "m.md", "o.txt", 3, 0, 0, 1, 1⟩
          ⟨some "NewName", none, none⟩ 9 5).json_filename = kb.json_filename ∧
      (apply_kb_update ⟨1, "KB", "backend", none, none, "m.md", "o.txt", 3, 0, 0, 1, 1⟩
          ⟨some "NewName", none, none⟩ 9 5).original_filename = kb.original_filename ∧
      (apply_kb_update ⟨1, "KB", "backend", none, none, "m.md", "o.txt", 3, 0, 0, 1, 1⟩
          ⟨some "NewName", none, none⟩ 9 5).created_at = kb.created_at ∧
      (apply_kb_update ⟨1, "KB", "backend", none, none, "m.md", "o.txt", 3, 0, 0, 1, 1⟩
          ⟨some "NewName", none, none⟩ 9 5).created_by_id = kb.created_by_id := by
  have h := C10_update_frame
    ⟨[⟨1, "KB", "backend", none, none, "m.md", "o.txt", 3, 0, 0, 1, 1⟩],
      [⟨1, 1, "root", "KB", [1], 0⟩], 2⟩ 1 ⟨some "NewName", none, none⟩ 9 5
    ⟨[apply_kb_update ⟨1, "KB", "backend", none, none, "m.md", "o.txt", 3, 0, 0, 1, 1⟩
        ⟨some "NewName", none, none⟩ 9 5],
      [⟨1, 1, "root", "KB", [1], 0⟩], 2⟩ rfl
  exact h.2.2 _ (by simp)

/-- Filtering and scoring of the internal search agrees with first
filtering the rows by threshold and then building the result entries. -/
theorem search_internal_eq_filter_map (rf : String → String) (rows : List SearchRow) (m : ℚ) :
    search_knowledge_base_internal rf rows m =
      (rows.filter (fun row => decide (m ≤ similarity row.distance))).map (row_to_result rf) := by
  induction rows with
  | nil => rfl
  | cons a t ih =>
    simp only [search_knowledge_base_internal] at ih ⊢
    rw [List.filterMap_cons, List.filter_cons]
    by_cases h : similarity a.distance < m
    · rw [if_pos h, ih]
      have hd : decide (m ≤ similarity a.distance) = false := decide_eq_false (not_le.mpr h)
      rw [hd]
      simp
    · rw [if_neg h, ih]
      have hd : decide (m ≤ similarity a.distance) = true := decide_eq_true (not_lt.mp h)
      rw [hd]
      simp

/-- C2: the first half of the claim holds (a stored match whose raw
similarity is strictly below min_score is excluded), but the second half
fails: the similarity_score field of a returned match is the similarity
rounded to four decimal places, which can fall strictly below min_score.
At distance 0.39997 the raw similarity 0.60003 passes the threshold
min_score = 0.60003, yet the reported similarity_score 0.6000 is below
it. -/
theorem C2_minscore_counterexample :
    ((search_knowledge_base_internal (fun _ => "")
        [⟨1, "t", "KB", "backend", none, "f.md", 39997 / 100000⟩] (60003 / 100000)).map
      (fun r => r.similarity_score)) = [3 / 5] ∧ (3 / 5 : ℚ) < 60003 / 100000 := by
  have hsim : similarity (39997 / 100000) = 60003 / 100000 := by
    rw [similarity_of_le_one _ (by norm_num)]
    norm_num
  have hfl : roundHalfEven (60003 / 100000 * 10000) = 6000 :=
    roundHalfEven_eq_floor _ 6000 (by push_cast; norm_num) (by push_cast; norm_num)
      (by push_cast; norm_num)
  have hround : round4 (60003 / 100000) = 3 / 5 := by
    unfold round4
    rw [hfl]
    norm_num
  have hnlt : ¬(similarity (39997 / 100000) < 60003 / 100000) := by
    rw [hsim]
    exact lt_irrefl _
  constructor
  · simp [search_knowledge_base_internal, row_to_result, hnlt, hsim, hround]
  · norm_num

/-- C2 amended: every stored match whose similarity max(0, 1 - d) is
strictly below min_score is excluded, and every returned match comes
from a row whose raw (unrounded) similarity is at least min_score, its
similarity_score being that similarity rounded to four decimal places;
in particular for stored distances 0.1, 0.5, 0.9 and min_score 0.6 only
the match at distance 0.1 is returned, scored 0.9. -/
theorem C2_minscore_amended :
    (∀ (rf : String → String) (rows : List SearchRow) (m : ℚ),
      search_knowledge_base_internal rf rows m =
        (rows.filter (fun row => decide (m ≤ similarity row.distance))).map (row_to_result rf)) ∧
    (∀ (rf : String → String) (rows : List SearchRow) (m : ℚ) (r : SearchResultEntry),
      r ∈ search_knowledge_base_internal rf rows m →
      ∃ row ∈ rows, m ≤ similarity row.distance ∧ r = row_to_result rf row) ∧
    ((search_knowledge_base_internal (fun _ => "")
        [⟨1, "t", "A", "backend", none, "a.md", 1 / 10⟩,
         ⟨2, "t", "B", "backend", none, "b.md", 1 / 2⟩,
         ⟨3, "t", "C", "backend", none, "c.md", 9 / 10⟩] (3 / 5)).map
      (fun r => (r.kb_id, r.similarity_score)) = [(1, 9 / 10)]) := by
  refine ⟨search_internal_eq_filter_map, ?_, ?_⟩
  · intro rf rows m r hr
    rw [search_internal_eq_filter_map] at hr
    obtain ⟨row, hrow, heq⟩ := List.mem_map.mp hr
    obtain ⟨hmem, hdec⟩ := List.mem_filter.mp hrow
    exact ⟨row, hmem, of_decide_eq_true hdec, heq.symm⟩
  · have h1 : similarity ((10 : ℚ))⁻¹ = 9 / 10 := by
      rw [similarity_of_le_one _ (by norm_num)]
      norm_num
    have hfl : roundHalfEven (9 / 10 * 10000) = 9000 :=
      roundHalfEven_eq_floor _ 9000 (by push_cast; norm_num) (by push_cast; norm_num)
        (by push_cast; norm_num)
    have h4 : round4 (9 / 10) = 9 / 10 := by
      unfold round4
      rw [hfl]
      norm_num
    have c1 : ¬(similarity ((10 : ℚ))⁻¹ < 3 / 5) := by
      rw [h1]
      norm_num
    have c2 : similarity ((2 : ℚ))⁻¹ < 3 / 5 := by
      rw [similarity_of_le_one _ (by norm_num)]
      norm_num
    have c3 : similarity ((9 : ℚ) / 10) < 3 / 5 := by
      rw [similarity_of_le_one _ (by norm_num)]
      norm_num
    have c0 : ¬((9 : ℚ) / 10 < 3 / 5) := by norm_num
    simp [search_knowledge_base_internal, row_to_result, List.filterMap_cons, c0, c1, c2, c3,
      h1, h4]

/-- Witness for C2 amended: the returned match at distance 0.1 with
min_score 0.6 arises from a stored row whose raw similarity meets the
threshold. -/
theorem C2_minscore_witness :
    ∃ row ∈ [(⟨1, "t", "A", "backend", none, "a.md", 1 / 10⟩ : SearchRow)],
      (3 / 5 : ℚ) ≤ similarity row.distance ∧
      row_to_result (fun _ => "") ⟨1, "t", "A", "backend", none, "a.md", 1 / 10⟩
        = row_to_result (fun _ => "") row := by
  apply C2_minscore_amended.2.1 (fun _ => "")
    [(⟨1, "t", "A", "backend", none, "a.md", 1 / 10⟩ : SearchRow)] (3 / 5)
  have c1 : ¬(similarity ((10 : ℚ))⁻¹ < 3 / 5) := by
    rw [similarity_of_le_one _ (by norm_num)]
    norm_num
  simp [search_knowledge_base_internal, c1]

/-- Embedding rows of an entry vanish after the delete step, so a
further filter for that entry is empty. -/
theorem filter_ne_then_eq (l : List KnowledgeEmbeddingRec) (kb_id : Nat) :
    ((l.filter (fun e => e.kb_id != kb_id)).filter (fun r => r.kb_id == kb_id)) = [] := by
  induction l with
  | nil => rfl
  | cons a t ih =>
    rw [List.filter_cons]
    by_cases h : a.kb_id = kb_id
    · simp [h, ih]
    · simp [h, ih, List.filter_cons]

/-- Number of live embedding rows of an entry after the regenerate step:
one when the provider yields a vector, zero when it fails. -/
theorem gen_store_count (st : DBState) (kb_id : Nat) (kb_name : String) (md : List Char)
    (e : List Char → Option (List ℚ)) (now : Nat) :
    ((generate_and_store_embedding_from_markdown st kb_id kb_name md e now).1.knowledge_embeddings.filter
      (fun r => r.kb_id == kb_id)).length = if (e (embed_text_of md)).isSome then 1 else 0 := by
  unfold generate_and_store_embedding_from_markdown
  cases he : e (embed_text_of md) with
  | none => simp [filter_ne_then_eq]
  | some v => simp [List.filter_append, filter_ne_then_eq]

/-- C3: the claim says that after every successful reingest exactly one
live embedding record exists for the entry.  This fails when the
embedding provider fails: the reingest still succeeds (the embedding
failure is swallowed), the prior record has been deleted, and no new
record is inserted, leaving zero live records; the version increment by
one does hold. -/
theorem C3_reingest_counterexample :
    (reprocess_knowledge_base
      ⟨[⟨1, "KB", "backend", none, none, "old.md", "old.txt", 1, 0, 0, 1, 1⟩],
        [⟨1, 1, "root", "KB", [1], 0⟩], 2⟩
      1 "new.md".data "u.md" "# hello".data (fun _ => .error "") (fun _ => none) 9 5).map
      (fun p => ((p.1.knowledge_embeddings.filter (fun r => r.kb_id == 1)).length, p.2.version))
      = some (0, 2) := rfl

/-- C3 amended: after every successful reingest the version counter has
incremented by exactly 1 and at most one live embedding record exists
for the entry: exactly one when the embedding provider succeeds, zero
when it fails (all prior records are deleted in both cases). -/
theorem C3_reingest_amended :
    ∀ (st : DBState) (kb_id : Nat) (f : List Char) (new_md : String) (content : List Char)
      (g : List Char → Except String (List Char)) (e : List Char → Option (List ℚ))
      (uid now : Nat) (st' : DBState) (kb' : KnowledgeBaseRec),
      reprocess_knowledge_base st kb_id f new_md content g e uid now = some (st', kb') →
      (∃ kb, st.kbs.find? (fun k => k.id == kb_id) = some kb ∧ kb'.version = kb.version + 1) ∧
      (st'.knowledge_embeddings.filter (fun r => r.kb_id == kb_id)).length ≤ 1 ∧
      ((∀ t, e t ≠ none) →
        (st'.knowledge_embeddings.filter (fun r => r.kb_id == kb_id)).length = 1) := by
  intro st kb_id f new_md content g e uid now st' kb' h
  unfold reprocess_knowledge_base at h
  split at h
  · exact absurd h (by simp)
  · rename_i kb hfind
    split at h
    · split at h
      · exact absurd h (by simp)
      · simp only [Option.some.injEq, Prod.mk.injEq] at h
        obtain ⟨hst, hkb⟩ := h
        subst hst
        subst hkb
        refine ⟨⟨kb, hfind, rfl⟩, ?_, ?_⟩
        · rw [gen_store_count]
          split <;> omega
        · intro hne
          rw [gen_store_count, if_pos (Option.ne_none_iff_isSome.mp (hne _))]
    · exact absurd h (by simp)

/-- Witness for C3 amended at a concrete one-entry state with a
succeeding embedding provider: one live record and version bumped from 1
to 2. -/
theorem C3_reingest_witness :
    (((⟨[⟨1, "KB", "backend", none, none, "u.md", "new.md", 2, 0, 5, 1, 9⟩],
        [⟨2, 1, "root", "KB", [1], 5⟩], 3⟩ : DBState).knowledge_embeddings.filter
      (fun r => r.kb_id == 1)).length = 1) ∧
    (⟨1, "KB", "backend", none, none, "u.md", "new.md", 2, 0, 5, 1, 9⟩ :
      KnowledgeBaseRec).version = 2 := by
  have h := C3_reingest_amended
    ⟨[⟨1, "KB", "backend", none, none, "old.md", "old.txt", 1, 0, 0, 1, 1⟩],
      [⟨1, 1, "root", "KB", [1], 0⟩], 2⟩
    1 "new.md".data "u.md" "# hello".data (fun _ => .error "") (fun _ => some [1]) 9 5
    ⟨[⟨1, "KB", "backend", none, none, "u.md", "new.md", 2, 0, 5, 1, 9⟩],
      [⟨2, 1, "root", "KB", [1], 5⟩], 3⟩
    ⟨1, "KB", "backend", none, none, "u.md", "new.md", 2, 0, 5, 1, 9⟩
    rfl
  exact ⟨h.2.2 (fun t => by simp), rfl⟩
